import Mathlib

/-!
Verification of the industry carbon emissions SQL pipeline (src/app.py).

The stored emissions table is embedded as a list of rows; the SQLite
aggregation queries of fetch_most_recent_year, fetch_totals_for_latest_year
and fetch_top5_ranked are embedded as pure functions over that list.  REAL
values are embedded as exact rationals.  The process-level behaviour of
main and initialize_database_with_csv is embedded as explicit state
passing over a small world record holding the CSV file and the stored table.
-/

namespace Emissions

/-- Embeds one row of the emissions table:
emissions(industry TEXT NOT NULL, year INTEGER NOT NULL,
emissions_mtco2e REAL NOT NULL). -/
structure Row where
  industry : String
  year : Int
  emissions_mtco2e : ℚ
deriving DecidableEq, Repr

/-- Insertion step of the sort used to embed the SQL ORDER BY clauses;
le a b = true means a may come before b. -/
def insertLe {α : Type} (le : α → α → Bool) (a : α) : List α → List α
  | [] => [a]
  | b :: bs => if le a b then a :: b :: bs else b :: insertLe le a bs

/-- Insertion sort used to embed the SQL ORDER BY clauses. -/
def sortLe {α : Type} (le : α → α → Bool) : List α → List α
  | [] => []
  | a :: as => insertLe le a (sortLe le as)

/-- Embeds fetch_most_recent_year, that is SELECT MAX(year) FROM emissions;
the result is None on the empty table and the maximum year otherwise. -/
def fetch_most_recent_year : List Row → Option Int
  | [] => none
  | r :: rs =>
    some (match fetch_most_recent_year rs with
      | none => r.year
      | some m => max r.year m)

/-- Embeds the join with the latest_year CTE: the rows whose year equals
MAX(year); the join is empty when the table is empty. -/
def latestYearRows (t : List Row) : List Row :=
  match fetch_most_recent_year t with
  | none => []
  | some y => t.filter (fun r => decide (r.year = y))

/-- Embeds the grouping key list of GROUP BY e.industry over the latest-year
rows: the distinct industries. -/
def industries (t : List Row) : List String :=
  ((latestYearRows t).map Row.industry).dedup

/-- Embeds SUM(e.emissions_mtco2e) for one industry group of the latest-year
rows. -/
def totalFor (t : List Row) (i : String) : ℚ :=
  (((latestYearRows t).filter (fun r => decide (r.industry = i))).map
    Row.emissions_mtco2e).sum

/-- Embeds the totals CTE: one (industry, total_emissions) pair per distinct
industry of the latest year, before any ORDER BY. -/
def totalsUnsorted (t : List Row) : List (String × ℚ) :=
  (industries t).map (fun i => (i, totalFor t i))

/-- Embeds fetch_totals_for_latest_year: the totals CTE ordered by
total_emissions DESC. -/
def fetch_totals_for_latest_year (t : List Row) : List (String × ℚ) :=
  sortLe (fun a b => decide (b.2 ≤ a.2)) (totalsUnsorted t)

/-- Embeds one output row of fetch_top5_ranked: (industry, total_emissions,
emissions_rank). -/
structure RankedRow where
  industry : String
  total_emissions : ℚ
  emissions_rank : Nat
deriving DecidableEq, Repr

/-- Embeds the ranked CTE: RANK() OVER (ORDER BY total_emissions DESC)
assigns each totals row one plus the number of totals rows with strictly
greater total (standard SQL competition rank). -/
def rankedUnsorted (t : List Row) : List RankedRow :=
  (totalsUnsorted t).map (fun p =>
    ⟨p.1, p.2, 1 + ((totalsUnsorted t).filter (fun q => decide (p.2 < q.2))).length⟩)

/-- Embeds the ORDER BY emissions_rank, industry comparison of
fetch_top5_ranked. -/
def rankedLe (a b : RankedRow) : Bool :=
  decide (a.emissions_rank < b.emissions_rank ∨
    (a.emissions_rank = b.emissions_rank ∧ a.industry ≤ b.industry))

/-- Embeds fetch_top5_ranked: the ranked rows with emissions_rank at most 5,
ordered by (emissions_rank, industry). -/
def fetch_top5_ranked (t : List Row) : List RankedRow :=
  sortLe rankedLe ((rankedUnsorted t).filter (fun r => decide (r.emissions_rank ≤ 5)))

/-- Embeds plot_top5_bar as a data transformation: the bars drawn are the
top-5 rows sorted by total_emissions descending, per sort_values with
ascending=False. -/
def plot_top5_bar (top5 : List RankedRow) : List RankedRow :=
  sortLe (fun a b => decide (b.total_emissions ≤ a.total_emissions)) top5

/-- Embeds the data content of the static HTML report: the printed year, the
two embedded tables, and the bars of the chart image. -/
structure Report where
  most_recent_year : Option Int
  totals_table : List (String × ℚ)
  top5_table : List RankedRow
  chart_bars : List RankedRow
deriving DecidableEq, Repr

/-- Embeds write_static_report as a data transformation: it renders the
year, the two tables and the chart produced by plot_top5_bar. -/
def write_static_report (y : Option Int) (totals : List (String × ℚ))
    (top5 : List RankedRow) : Report :=
  ⟨y, totals, top5, plot_top5_bar top5⟩

/-- Embeds the process state seen by main and initialize_database_with_csv:
the CSV file (none when absent) and the stored emissions table (none when
no table exists in the database file). -/
structure World where
  csv : Option (List Row)
  store : Option (List Row)
deriving DecidableEq, Repr

/-- Embeds the errors a run can surface. -/
inductive RunError where
  | csvMissing
deriving DecidableEq, Repr

/-- Embeds initialize_database_with_csv: drop any existing emissions table
and create the fresh empty one, then read the CSV; a missing CSV fails only
after the drop and create have taken effect, while a present CSV is
bulk-inserted. -/
def initialize_database_with_csv (csv : Option (List Row)) (w : World) :
    World × Option RunError :=
  let dropped : World := { w with store := some [] }
  match csv with
  | none => (dropped, some RunError.csvMissing)
  | some rows => ({ dropped with store := some rows }, none)

/-- Embeds everything a successful run outputs: the console lines and the
static report share these values. -/
structure Outputs where
  most_recent_year : Option Int
  totals : List (String × ℚ)
  top5 : List RankedRow
  report : Report
deriving DecidableEq, Repr

/-- Embeds main: abort with FileNotFoundError before touching the store when
the CSV is absent; otherwise load the store from the CSV, run the three
queries and render the outputs. -/
def main (w : World) : World × Except RunError Outputs :=
  match w.csv with
  | none => (w, Except.error RunError.csvMissing)
  | some rows =>
    let w1 := (initialize_database_with_csv (some rows) w).1
    let t := w1.store.getD []
    let y := fetch_most_recent_year t
    let totals := fetch_totals_for_latest_year t
    let top5 := fetch_top5_ranked t
    (w1, Except.ok ⟨y, totals, top5, write_static_report y totals top5⟩)

/-- Modelled from the spec: the dense rank of the total of an industry, one plus
the number of distinct totals strictly greater than it, so that tied totals
share a rank and the rank of the next distinct total follows without gaps. -/
def denseRankSpec (t : List Row) (i : String) : Nat :=
  1 + ((((totalsUnsorted t).map Prod.snd).dedup).filter
        (fun q => decide (totalFor t i < q))).length

/-- Embeds the worked example of the spec: rows (A,2020,10.0), (B,2020,30.0),
(A,2019,5.0). -/
def exSimple : List Row :=
  [⟨"A", 2020, 10⟩, ⟨"B", 2020, 30⟩, ⟨"A", 2019, 5⟩]

/-- Embeds a table whose latest year has two industries tied ahead of a
third: totals A = 10, B = 10, C = 5. -/
def exTie : List Row :=
  [⟨"A", 2020, 10⟩, ⟨"B", 2020, 10⟩, ⟨"C", 2020, 5⟩]

/-- Embeds a table whose latest year has six industries tied for the highest
total. -/
def exSix : List Row :=
  [⟨"A", 2020, 7⟩, ⟨"B", 2020, 7⟩, ⟨"C", 2020, 7⟩,
   ⟨"D", 2020, 7⟩, ⟨"E", 2020, 7⟩, ⟨"F", 2020, 7⟩]

section SortLemmas

variable {α : Type} (le : α → α → Bool)

theorem insertLe_perm (a : α) : ∀ l : List α, (insertLe le a l).Perm (a :: l)
  | [] => List.Perm.refl _
  | b :: bs => by
    unfold insertLe
    split
    · exact List.Perm.refl _
    · exact List.Perm.trans (List.Perm.cons b (insertLe_perm a bs))
        (List.Perm.swap a b bs)

theorem sortLe_perm : ∀ l : List α, (sortLe le l).Perm l
  | [] => List.Perm.refl _
  | a :: as =>
    List.Perm.trans (insertLe_perm le a (sortLe le as))
      (List.Perm.cons a (sortLe_perm as))

theorem mem_sortLe {a : α} {l : List α} : a ∈ sortLe le l ↔ a ∈ l :=
  (sortLe_perm le l).mem_iff

theorem length_sortLe (l : List α) : (sortLe le l).length = l.length :=
  (sortLe_perm le l).length_eq

theorem pairwise_insertLe {R : α → α → Prop}
    (hle : ∀ a b, le a b = true → R a b)
    (hgt : ∀ a b, le a b = false → R b a)
    (htrans : Transitive R) (a : α) :
    ∀ l : List α, l.Pairwise R → (insertLe le a l).Pairwise R
  | [], _ => List.pairwise_singleton R a
  | b :: bs, h => by
    rw [List.pairwise_cons] at h
    obtain ⟨hb, hbs⟩ := h
    unfold insertLe
    cases hab : le a b with
    | true =>
      rw [if_pos rfl]
      refine List.Pairwise.cons ?_ (List.Pairwise.cons hb hbs)
      intro x hx
      rcases List.mem_cons.mp hx with hx | hx
      · exact hx ▸ hle a b hab
      · exact htrans (hle a b hab) (hb x hx)
    | false =>
      rw [if_neg (by simp [hab])]
      refine List.Pairwise.cons ?_ (pairwise_insertLe hle hgt htrans a bs hbs)
      intro x hx
      rcases List.mem_cons.mp ((insertLe_perm le a bs).mem_iff.mp hx) with hx | hx
      · exact hx ▸ hgt a b hab
      · exact hb x hx

theorem pairwise_sortLe {R : α → α → Prop}
    (hle : ∀ a b, le a b = true → R a b)
    (hgt : ∀ a b, le a b = false → R b a)
    (htrans : Transitive R) :
    ∀ l : List α, (sortLe le l).Pairwise R
  | [] => List.Pairwise.nil
  | a :: as =>
    pairwise_insertLe le hle hgt htrans a (sortLe le as)
      (pairwise_sortLe hle hgt htrans as)

end SortLemmas

theorem sum_map_sortLe {α : Type} (le : α → α → Bool) (f : α → ℚ) (l : List α) :
    ((sortLe le l).map f).sum = (l.map f).sum :=
  ((sortLe_perm le l).map f).sum_eq

/-- C3: for every non-empty stored emissions table, fetch_most_recent_year
returns exactly the maximum value of the year column over all stored rows. -/
theorem fetch_most_recent_year_is_max (t : List Row) (h : t ≠ []) :
    ∃ m, fetch_most_recent_year t = some m ∧ (∃ r ∈ t, r.year = m) ∧
      ∀ r ∈ t, r.year ≤ m := by
  induction t with
  | nil => exact absurd rfl h
  | cons r rs ih =>
    cases rs with
    | nil =>
      refine ⟨r.year, rfl, ⟨r, List.mem_cons_self r [], rfl⟩, ?_⟩
      intro x hx
      rcases List.mem_cons.mp hx with hx | hx
      · exact hx ▸ le_refl _
      · exact absurd hx (List.not_mem_nil x)
    | cons s ss =>
      obtain ⟨m, hm, ⟨r0, hr0, hy0⟩, hall⟩ := ih (List.cons_ne_nil s ss)
      refine ⟨max r.year m, ?_, ?_, ?_⟩
      · show fetch_most_recent_year (r :: s :: ss) = some (max r.year m)
        unfold fetch_most_recent_year
        rw [hm]
      · rcases le_total r.year m with hle | hle
        · exact ⟨r0, List.mem_cons_of_mem r hr0, hy0.trans (max_eq_right hle).symm⟩
        · exact ⟨r, List.mem_cons_self r _, (max_eq_left hle).symm⟩
      · intro x hx
        rcases List.mem_cons.mp hx with hx | hx
        · exact hx ▸ le_max_left r.year m
        · exact (hall x hx).trans (le_max_right r.year m)

/-- Witness for C3 at the worked example of the spec. -/
theorem fetch_most_recent_year_is_max_witness :
    ∃ m, fetch_most_recent_year exSimple = some m ∧ (∃ r ∈ exSimple, r.year = m) ∧
      ∀ r ∈ exSimple, r.year ≤ m :=
  fetch_most_recent_year_is_max exSimple (by simp [exSimple])

/-- C6: the empty stored table gives a null most-recent year, empty totals
and top-5 collections, and the reporter renders them as empty tables. -/
theorem empty_table_gives_empty_outputs :
    fetch_most_recent_year ([] : List Row) = none ∧
    fetch_totals_for_latest_year ([] : List Row) = [] ∧
    fetch_top5_ranked ([] : List Row) = [] ∧
    write_static_report (fetch_most_recent_year []) (fetch_totals_for_latest_year [])
      (fetch_top5_ranked []) = ⟨none, [], [], []⟩ :=
  ⟨rfl, rfl, rfl, rfl⟩

/-- C7: when the CSV is absent, main reports the error and aborts before any
mutation of the store: the stored table is unchanged. -/
theorem missing_csv_aborts_run (w : World) (h : w.csv = none) :
    (main w).1.store = w.store ∧ (main w).2 = Except.error RunError.csvMissing := by
  unfold main
  rw [h]
  exact ⟨rfl, rfl⟩

/-- Witness for C7: a world with no CSV but a populated store. -/
theorem missing_csv_aborts_run_witness :
    (main ⟨none, some exSimple⟩).1.store = (⟨none, some exSimple⟩ : World).store ∧
    (main ⟨none, some exSimple⟩).2 = Except.error RunError.csvMissing :=
  missing_csv_aborts_run ⟨none, some exSimple⟩ rfl

/-- C8: two runs of the full pipeline on the same CSV produce identical
outputs, whatever the prior store state of each run was. -/
theorem pipeline_deterministic (w1 w2 : World) (rows : List Row)
    (h1 : w1.csv = some rows) (h2 : w2.csv = some rows) :
    (main w1).2 = (main w2).2 := by
  unfold main
  rw [h1, h2]
  rfl

/-- Witness for C8: one run against a fresh store and one against a store
holding leftovers give the same outputs. -/
theorem pipeline_deterministic_witness :
    (main ⟨some exSimple, none⟩).2 = (main ⟨some exSimple, some exTie⟩).2 :=
  pipeline_deterministic ⟨some exSimple, none⟩ ⟨some exSimple, some exTie⟩ exSimple rfl rfl

/-- C10: initialize_database_with_csv drops and recreates the table before
reading the CSV, so a failed read leaves the fresh empty table in place of
the previous contents: the loader is not atomic on error. -/
theorem loader_not_atomic_on_error (w : World) (t : List Row)
    (hs : w.store = some t) (hne : t ≠ []) :
    (initialize_database_with_csv none w).1.store = some [] ∧
    (initialize_database_with_csv none w).1.store ≠ w.store ∧
    (initialize_database_with_csv none w).2 = some RunError.csvMissing := by
  refine ⟨rfl, ?_, rfl⟩
  intro hEq
  rw [hs] at hEq
  exact hne (Option.some.inj hEq).symm

theorem year_exSimple : fetch_most_recent_year exSimple = some 2020 := by
  norm_num [fetch_most_recent_year, exSimple]

theorem latest_exSimple :
    latestYearRows exSimple = [⟨"A", 2020, 10⟩, ⟨"B", 2020, 30⟩] := by
  unfold latestYearRows
  rw [year_exSimple]
  simp [exSimple, List.filter_cons]

theorem industries_exSimple : industries exSimple = ["A", "B"] := by
  rw [industries, latest_exSimple]
  simp [List.dedup_cons_of_not_mem]

theorem totalsUnsorted_exSimple :
    totalsUnsorted exSimple = [("A", 10), ("B", 30)] := by
  rw [totalsUnsorted, industries_exSimple]
  simp [totalFor, latest_exSimple, List.filter_cons]

theorem totals_exSimple :
    fetch_totals_for_latest_year exSimple = [("B", 30), ("A", 10)] := by
  have h1 : ¬ ((30 : ℚ) ≤ 10) := by norm_num
  rw [fetch_totals_for_latest_year, totalsUnsorted_exSimple]
  simp [sortLe, insertLe, h1]

theorem ranked_exSimple :
    rankedUnsorted exSimple = [⟨"A", 10, 2⟩, ⟨"B", 30, 1⟩] := by
  have h1 : (10 : ℚ) < 30 := by norm_num
  have h2 : ¬ ((30 : ℚ) < 10) := by norm_num
  rw [rankedUnsorted, totalsUnsorted_exSimple]
  simp [List.filter_cons, h1, h2]

theorem top5_exSimple :
    fetch_top5_ranked exSimple = [⟨"B", 30, 1⟩, ⟨"A", 10, 2⟩] := by
  rw [fetch_top5_ranked, ranked_exSimple]
  simp [List.filter_cons, sortLe, insertLe, rankedLe]

/-- Sanity check: the worked example of the spec evaluates as documented. -/
theorem exSimple_evaluates :
    fetch_most_recent_year exSimple = some 2020 ∧
    fetch_totals_for_latest_year exSimple = [("B", 30), ("A", 10)] ∧
    fetch_top5_ranked exSimple = [⟨"B", 30, 1⟩, ⟨"A", 10, 2⟩] :=
  ⟨year_exSimple, totals_exSimple, top5_exSimple⟩

theorem year_exTie : fetch_most_recent_year exTie = some 2020 := by
  norm_num [fetch_most_recent_year, exTie]

theorem latest_exTie :
    latestYearRows exTie = [⟨"A", 2020, 10⟩, ⟨"B", 2020, 10⟩, ⟨"C", 2020, 5⟩] := by
  unfold latestYearRows
  rw [year_exTie]
  simp [exTie, List.filter_cons]

theorem industries_exTie : industries exTie = ["A", "B", "C"] := by
  rw [industries, latest_exTie]
  simp [List.dedup_cons_of_not_mem]

theorem totalsUnsorted_exTie :
    totalsUnsorted exTie = [("A", 10), ("B", 10), ("C", 5)] := by
  rw [totalsUnsorted, industries_exTie]
  simp [totalFor, latest_exTie, List.filter_cons]

theorem ranked_exTie :
    rankedUnsorted exTie = [⟨"A", 10, 1⟩, ⟨"B", 10, 1⟩, ⟨"C", 5, 3⟩] := by
  have h2 : ¬ ((10 : ℚ) < 5) := by norm_num
  have h3 : (5 : ℚ) < 10 := by norm_num
  rw [rankedUnsorted, totalsUnsorted_exTie]
  simp [List.filter_cons, h2, h3]

theorem top5_exTie :
    fetch_top5_ranked exTie = [⟨"A", 10, 1⟩, ⟨"B", 10, 1⟩, ⟨"C", 5, 3⟩] := by
  have hAB : ("A" : String) ≤ "B" := by
    rw [String.le_iff_toList_le]; decide
  rw [fetch_top5_ranked, ranked_exTie]
  simp [List.filter_cons, sortLe, insertLe, rankedLe, hAB]

theorem totalFor_exTie_C : totalFor exTie "C" = 5 := by
  rw [totalFor, latest_exTie]
  simp [List.filter_cons]

theorem denseRank_exTie_C : denseRankSpec exTie "C" = 2 := by
  have h1 : ¬ ((10 : ℚ) = 5) := by norm_num
  have h3 : (5 : ℚ) < 10 := by norm_num
  rw [denseRankSpec, totalsUnsorted_exTie]
  simp [totalFor_exTie_C, List.dedup_cons_of_mem, List.dedup_cons_of_not_mem, h1,
    List.filter_cons, h3]

theorem year_exSix : fetch_most_recent_year exSix = some 2020 := by
  norm_num [fetch_most_recent_year, exSix]

theorem latest_exSix :
    latestYearRows exSix =
      [⟨"A", 2020, 7⟩, ⟨"B", 2020, 7⟩, ⟨"C", 2020, 7⟩,
       ⟨"D", 2020, 7⟩, ⟨"E", 2020, 7⟩, ⟨"F", 2020, 7⟩] := by
  unfold latestYearRows
  rw [year_exSix]
  simp [exSix, List.filter_cons]

theorem industries_exSix :
    industries exSix = ["A", "B", "C", "D", "E", "F"] := by
  rw [industries, latest_exSix]
  simp [List.dedup_cons_of_not_mem]

theorem totalsUnsorted_exSix :
    totalsUnsorted exSix =
      [("A", 7), ("B", 7), ("C", 7), ("D", 7), ("E", 7), ("F", 7)] := by
  rw [totalsUnsorted, industries_exSix]
  simp [totalFor, latest_exSix, List.filter_cons]

theorem ranked_exSix :
    rankedUnsorted exSix =
      [⟨"A", 7, 1⟩, ⟨"B", 7, 1⟩, ⟨"C", 7, 1⟩, ⟨"D", 7, 1⟩, ⟨"E", 7, 1⟩, ⟨"F", 7, 1⟩] := by
  rw [rankedUnsorted, totalsUnsorted_exSix]
  simp [List.filter_cons]

/-- Witness for C10: a world whose store holds a non-empty table and whose
CSV is missing. -/
theorem loader_not_atomic_on_error_witness :
    (initialize_database_with_csv none ⟨none, some exSimple⟩).1.store = some [] ∧
    (initialize_database_with_csv none ⟨none, some exSimple⟩).1.store ≠
      (⟨none, some exSimple⟩ : World).store ∧
    (initialize_database_with_csv none ⟨none, some exSimple⟩).2 =
      some RunError.csvMissing :=
  loader_not_atomic_on_error ⟨none, some exSimple⟩ exSimple rfl (by simp [exSimple])

/-- Every row of the ranked CTE carries the competition rank determined by
its own total, and its (industry, total) pair is a totals-CTE entry. -/
theorem mem_rankedUnsorted {t : List Row} {row : RankedRow}
    (h : row ∈ rankedUnsorted t) :
    row.emissions_rank =
      1 + ((totalsUnsorted t).filter (fun q => decide (row.total_emissions < q.2))).length ∧
    (row.industry, row.total_emissions) ∈ totalsUnsorted t := by
  obtain ⟨p, hp, hrow⟩ := List.mem_map.mp h
  subst hrow
  exact ⟨rfl, by simpa using hp⟩

/-- Every output row of fetch_top5_ranked comes from the ranked CTE. -/
theorem mem_top5_ranked {t : List Row} {row : RankedRow}
    (h : row ∈ fetch_top5_ranked t) :
    row ∈ rankedUnsorted t ∧ 1 ≤ row.emissions_rank ∧ row.emissions_rank ≤ 5 := by
  have h1 := (mem_sortLe rankedLe).mp h
  have h2 := List.mem_of_mem_filter h1
  have h3 := List.of_mem_filter h1
  refine ⟨h2, ?_, by simpa using h3⟩
  obtain ⟨p, hp, hrow⟩ := List.mem_map.mp h2
  subst hrow
  exact Nat.le_add_right 1 _

/-- C9: the rank filter keeps whole tie groups, so a table with six
industries tied for the highest total returns six rows, more than 5. -/
theorem tie_groups_can_exceed_five_rows : 5 < (fetch_top5_ranked exSix).length := by
  have h : (fetch_top5_ranked exSix).length = 6 := by
    rw [fetch_top5_ranked, length_sortLe, ranked_exSix]
    simp [List.filter_cons]
  rw [h]
  exact Nat.lt_succ_self 5

/-- C1 counterexample: on the tied table exTie the rank column produced by
fetch_top5_ranked is not the dense rank of the row total: the row for C
carries rank 3 while its dense rank is 2. -/
theorem top5_rank_is_not_dense_rank :
    ¬ ∀ row ∈ fetch_top5_ranked exTie,
        row.emissions_rank = denseRankSpec exTie row.industry := by
  intro h
  have hC := h ⟨"C", 5, 3⟩ (by rw [top5_exTie]; simp)
  rw [denseRank_exTie_C] at hC
  exact absurd hC (by decide)

/-- C1 amended: the rank column of every top-5 output row is the standard
SQL competition rank of the row total: one plus the number of
totals-for-latest-year rows with strictly greater total, so tied totals
share a rank and the rank of the next distinct total skips the tied rows. -/
theorem top5_rank_is_competition_rank (t : List Row) (row : RankedRow)
    (h : row ∈ fetch_top5_ranked t) :
    row.emissions_rank =
      1 + ((fetch_totals_for_latest_year t).filter
            (fun q => decide (row.total_emissions < q.2))).length := by
  have h2 := (mem_top5_ranked h).1
  rw [(mem_rankedUnsorted h2).1]
  have hperm := (sortLe_perm (fun a b => decide (b.2 ≤ a.2)) (totalsUnsorted t)).filter
    (fun q => decide (row.total_emissions < q.2))
  rw [fetch_totals_for_latest_year, hperm.length_eq]

/-- Witness for the amended C1 at the worked example of the spec. -/
theorem top5_rank_is_competition_rank_witness :
    (⟨"B", 30, 1⟩ : RankedRow).emissions_rank =
      1 + ((fetch_totals_for_latest_year exSimple).filter
            (fun q => decide ((⟨"B", 30, 1⟩ : RankedRow).total_emissions < q.2))).length :=
  top5_rank_is_competition_rank exSimple ⟨"B", 30, 1⟩ (by rw [top5_exSimple]; simp)

/-- C4: the top-5 output has at most 5 distinct rank values, at most as many
rows as there are distinct industries in the latest year, and every row
total agrees with the totals-for-latest-year entry of its industry. -/
theorem top5_bounded_and_consistent (t : List Row) :
    ((fetch_top5_ranked t).map RankedRow.emissions_rank).toFinset.card ≤ 5 ∧
    (fetch_top5_ranked t).length ≤ (((latestYearRows t).map Row.industry).dedup).length ∧
    ∀ row ∈ fetch_top5_ranked t,
      (row.industry, row.total_emissions) ∈ fetch_totals_for_latest_year t := by
  refine ⟨?_, ?_, ?_⟩
  · have hsub : ((fetch_top5_ranked t).map RankedRow.emissions_rank).toFinset ⊆
        Finset.Icc 1 5 := by
      intro x hx
      rw [List.mem_toFinset] at hx
      obtain ⟨row, hrow, hx⟩ := List.mem_map.mp hx
      obtain ⟨_, h1, h5⟩ := mem_top5_ranked hrow
      rw [Finset.mem_Icc]
      exact ⟨hx ▸ h1, hx ▸ h5⟩
    have hcard := Finset.card_le_card hsub
    simpa [Nat.card_Icc] using hcard
  · rw [fetch_top5_ranked, length_sortLe]
    calc ((rankedUnsorted t).filter (fun r => decide (r.emissions_rank ≤ 5))).length
        ≤ (rankedUnsorted t).length := List.length_filter_le _ _
      _ = (totalsUnsorted t).length := by rw [rankedUnsorted, List.length_map]
      _ = (industries t).length := by rw [totalsUnsorted, List.length_map]
      _ = (((latestYearRows t).map Row.industry).dedup).length := rfl
  · intro row hrow
    have h2 := (mem_top5_ranked hrow).1
    have h3 := (mem_rankedUnsorted h2).2
    rw [fetch_totals_for_latest_year]
    exact (mem_sortLe _).mpr h3

/-- Witness for C4 at the worked example of the spec. -/
theorem top5_bounded_and_consistent_witness :
    ((fetch_top5_ranked exSimple).map RankedRow.emissions_rank).toFinset.card ≤ 5 ∧
    (fetch_top5_ranked exSimple).length ≤
      (((latestYearRows exSimple).map Row.industry).dedup).length ∧
    ∀ row ∈ fetch_top5_ranked exSimple,
      (row.industry, row.total_emissions) ∈ fetch_totals_for_latest_year exSimple :=
  top5_bounded_and_consistent exSimple

/-- C5: the top-5 output is ordered by rank ascending then industry
ascending, and rows with equal totals carry equal ranks, so tied industries
appear in ascending alphabetical order. -/
theorem top5_ordered_rank_then_industry (t : List Row) :
    (fetch_top5_ranked t).Pairwise (fun a b =>
      a.emissions_rank < b.emissions_rank ∨
        (a.emissions_rank = b.emissions_rank ∧ a.industry ≤ b.industry)) ∧
    ∀ a ∈ fetch_top5_ranked t, ∀ b ∈ fetch_top5_ranked t,
      a.total_emissions = b.total_emissions → a.emissions_rank = b.emissions_rank := by
  constructor
  · rw [fetch_top5_ranked]
    refine pairwise_sortLe rankedLe ?_ ?_ ?_ _
    · intro a b hab
      unfold rankedLe at hab
      exact of_decide_eq_true hab
    · intro a b hab
      unfold rankedLe at hab
      have h := of_decide_eq_false hab
      push_neg at h
      obtain ⟨h1, h2⟩ := h
      rcases Nat.lt_or_ge b.emissions_rank a.emissions_rank with hlt | hge
      · exact Or.inl hlt
      · have heq := Nat.le_antisymm h1 hge
        exact Or.inr ⟨heq, le_of_lt (h2 heq.symm)⟩
    · intro a b c hab hbc
      rcases hab with hab | ⟨hab, hab2⟩ <;> rcases hbc with hbc | ⟨hbc, hbc2⟩
      · exact Or.inl (Nat.lt_trans hab hbc)
      · exact Or.inl (by rw [← hbc]; exact hab)
      · exact Or.inl (by rw [hab]; exact hbc)
      · exact Or.inr ⟨hab.trans hbc, le_trans hab2 hbc2⟩
  · intro a ha b hb heq
    have ha2 := (mem_top5_ranked ha).1
    have hb2 := (mem_top5_ranked hb).1
    rw [(mem_rankedUnsorted ha2).1, (mem_rankedUnsorted hb2).1, heq]

/-- Witness for C5 at the table with a tie between A and B. -/
theorem top5_ordered_rank_then_industry_witness :
    (fetch_top5_ranked exTie).Pairwise (fun a b =>
      a.emissions_rank < b.emissions_rank ∨
        (a.emissions_rank = b.emissions_rank ∧ a.industry ≤ b.industry)) ∧
    ∀ a ∈ fetch_top5_ranked exTie, ∀ b ∈ fetch_top5_ranked exTie,
      a.total_emissions = b.total_emissions → a.emissions_rank = b.emissions_rank :=
  top5_ordered_rank_then_industry exTie

/-- Splitting a list by a boolean predicate splits its mapped sum. -/
theorem sum_map_filter_not {α : Type} (p : α → Bool) (f : α → ℚ) :
    ∀ l : List α,
      ((l.filter p).map f).sum + ((l.filter (fun a => !p a)).map f).sum = (l.map f).sum
  | [] => by simp
  | a :: l => by
    cases hpa : p a with
    | true =>
      simp only [List.filter_cons, hpa, Bool.not_true, if_pos, if_neg, List.map_cons,
        List.sum_cons, Bool.false_eq_true, ite_false, ite_true]
      linarith [sum_map_filter_not p f l]
    | false =>
      simp only [List.filter_cons, hpa, Bool.not_false, List.map_cons, List.sum_cons,
        Bool.false_eq_true, ite_false, ite_true]
      linarith [sum_map_filter_not p f l]

/-- Summing the per-industry group sums over a duplicate-free covering list
of industries gives the total sum over all rows. -/
theorem sum_over_groups (f : Row → ℚ) :
    ∀ (is : List String) (l : List Row), is.Nodup →
      (∀ r ∈ l, r.industry ∈ is) →
      (is.map (fun i => ((l.filter (fun r => decide (r.industry = i))).map f).sum)).sum
        = (l.map f).sum
  | [], l, _, hc => by
    have hl : l = [] :=
      List.eq_nil_iff_forall_not_mem.mpr
        (fun r hr => absurd (hc r hr) (List.not_mem_nil _))
    rw [hl]
    simp
  | i :: is, l, hn, hc => by
    obtain ⟨hni, hnis⟩ := List.nodup_cons.mp hn
    have hstep : ∀ j ∈ is,
        l.filter (fun r => decide (r.industry = j))
          = (l.filter (fun r => !(decide (r.industry = i)))).filter
              (fun r => decide (r.industry = j)) := by
      intro j hj
      have hji : j ≠ i := fun hEq => hni (hEq ▸ hj)
      rw [List.filter_filter]
      apply List.filter_congr
      intro r _
      by_cases hr : r.industry = j
      · simp [hr, hji]
      · simp [hr]
    have hmap :
        is.map (fun j => ((l.filter (fun r => decide (r.industry = j))).map f).sum)
          = is.map (fun j =>
              (((l.filter (fun r => !(decide (r.industry = i)))).filter
                (fun r => decide (r.industry = j))).map f).sum) :=
      List.map_congr_left (fun j hj => by rw [hstep j hj])
    have hcover : ∀ r ∈ l.filter (fun r => !(decide (r.industry = i))),
        r.industry ∈ is := by
      intro r hr
      have h1 := List.mem_of_mem_filter hr
      have h2 := List.of_mem_filter hr
      have h3 : r.industry ≠ i := by simpa using h2
      rcases List.mem_cons.mp (hc r h1) with h | h
      · exact absurd h h3
      · exact h
    have ih := sum_over_groups f is (l.filter (fun r => !(decide (r.industry = i))))
      hnis hcover
    rw [List.map_cons, List.sum_cons, hmap, ih]
    exact sum_map_filter_not (fun r => decide (r.industry = i)) f l

/-- C2: the sum of the totals returned for the latest year equals the sum of
emissions_mtco2e over all stored rows whose year is the latest year. -/
theorem totals_sum_equals_latest_year_sum (t : List Row) (y : Int)
    (h : fetch_most_recent_year t = some y) :
    ((fetch_totals_for_latest_year t).map Prod.snd).sum =
      ((t.filter (fun r => decide (r.year = y))).map Row.emissions_mtco2e).sum := by
  have hl : latestYearRows t = t.filter (fun r => decide (r.year = y)) := by
    unfold latestYearRows
    rw [h]
  rw [fetch_totals_for_latest_year, sum_map_sortLe, totalsUnsorted, List.map_map]
  have hcover : ∀ r ∈ latestYearRows t, r.industry ∈ industries t := by
    intro r hr
    exact List.mem_dedup.mpr (List.mem_map_of_mem Row.industry hr)
  have hgroup := sum_over_groups Row.emissions_mtco2e (industries t) (latestYearRows t)
    (List.nodup_dedup _) hcover
  rw [← hl]
  exact hgroup

/-- Witness for C2 at the worked example of the spec. -/
theorem totals_sum_equals_latest_year_sum_witness :
    ((fetch_totals_for_latest_year exSimple).map Prod.snd).sum =
      ((exSimple.filter (fun r => decide (r.year = 2020))).map Row.emissions_mtco2e).sum :=
  totals_sum_equals_latest_year_sum exSimple 2020 year_exSimple

end Emissions
